import Mathlib

set_option maxHeartbeats 1000000

namespace MongoJson

/-- Scan actions returned by scanner step functions, mirroring the scan-action
vocabulary consumed by src/common/json/number.go (scanContinue, scanSkipSpace,
scanBeginCtor, scanError; the remaining actions of the base scanner are
collapsed into the representatives needed here). -/
inductive ScanAction where
  | scanContinue
  | scanSkipSpace
  | scanBeginLiteral
  | scanBeginCtor
  | scanEndCtor
  | scanEnd
  | scanError
deriving DecidableEq, Repr

/-- Scanner states relevant to the Number* keyword recognition in
src/common/json/number.go. The source represents states as first-class step
functions stored in the scanner; here each named state function is one
constructor. `generateState kw c rest next` is the chain state produced by the
collaborator generateState(kw, bytes, next) when it still has to match the
character `c` followed by `rest` before handing control to `next`.
`stateError c ctx` is the scanner after s.error(c, ctx): the syntax error
carries the offending character and the context message. -/
inductive JState where
  | stateUpperNu
  | stateUpperNumber
  | stateConstructor
  | generateState (keyword : String) (c : Char) (rest : List Char) (next : JState)
  | stateError (c : Char) (context : String)
deriving DecidableEq, Repr

/-- The context message of the syntax error raised when the character after
the matched prefix Number is none of I, L, D (number.go line 41). -/
def afterNumberErrMsg : String :=
  "in literal NumberInt or NumberLong (expecting \x27I\x27 or \x27L\x27)"

/-- One scanner step: the state's step function applied to the next input
character, returning the new value of s.step and the scan action.

The stateUpperNu and stateUpperNumber cases are translated from
src/common/json/number.go lines 19-42.  The generateState case is modelled
from the spec (4.1 Keyword Transition Builder): generateState itself lives in
the scanner file, which is not under src/; it matches each expected character
in order, raises a syntax error naming the keyword and the expected character
on a mismatch, and transfers control to the success state after the final
character.  The stateConstructor case is out of scope for the claims and is
modelled minimally from the spec (4.3): it expects the opening parenthesis.
An error state keeps returning scanError. -/
def stepScan : JState → Char → JState × ScanAction
  | JState.stateUpperNu, c =>
      if c = 'm' then
        (JState.generateState "Number" 'b' ['e', 'r'] JState.stateUpperNumber,
         ScanAction.scanContinue)
      else
        (JState.stateError c "in literal Number (expecting \x27m\x27)",
         ScanAction.scanError)
  | JState.stateUpperNumber, c =>
      if c = 'I' then
        (JState.generateState "NumberInt" 'n' ['t'] JState.stateConstructor,
         ScanAction.scanContinue)
      else if c = 'L' then
        (JState.generateState "NumberLong" 'o' ['n', 'g'] JState.stateConstructor,
         ScanAction.scanContinue)
      else if c = 'D' then
        (JState.generateState "NumberDecimal" 'e' ['c', 'i', 'm', 'a', 'l'] JState.stateConstructor,
         ScanAction.scanContinue)
      else
        (JState.stateError c afterNumberErrMsg, ScanAction.scanError)
  | JState.generateState kw e rest next, c =>
      if c = e then
        match rest with
        | [] => (next, ScanAction.scanContinue)
        | e2 :: rest2 => (JState.generateState kw e2 rest2 next, ScanAction.scanContinue)
      else
        (JState.stateError c ("in literal " ++ kw), ScanAction.scanError)
  | JState.stateConstructor, c =>
      if c = '(' then (JState.stateConstructor, ScanAction.scanBeginCtor)
      else (JState.stateError c "expected beginning of constructor", ScanAction.scanError)
  | JState.stateError c ctx, _ =>
      (JState.stateError c ctx, ScanAction.scanError)

/-- Reflect kinds of a destination value, mirroring the subset of
reflect.Kind the destination switch in number.go distinguishes: the Interface
kind is stored into; every other kind is a destination-type error. -/
inductive RKind where
  | Interface
  | Bool
  | Int
  | Int32
  | Int64
  | Float64
  | String
  | Struct
  | Map
  | Slice
  | Ptr
deriving DecidableEq, Repr

/-- primitive.Decimal128: an opaque 128-bit decimal value carried as its two
64-bit words h and l.  The zero value (the Go zero primitive.Decimal128{}) has
both words 0. -/
structure Dec128 where
  h : Nat
  l : Nat
deriving DecidableEq, Repr

/-- The Go zero value of primitive.Decimal128. -/
def Dec128.zero : Dec128 := ⟨0, 0⟩

/-- The NaN Decimal128 constant that the external string parser returns
alongside a parse error: mongo-driver decimal.go has dNaN with h = 0x1F
shifted left by 58 and l = 0.  The parser itself is outside this repository
and stays an oracle parameter below; this constant is only used to build the
concrete parser oracles. -/
def Dec128.dNaN : Dec128 := ⟨0x1F * 2 ^ 58, 0⟩

/-- Errors raised through d.error in src/common/json/number.go, one
constructor per fmt.Errorf call shape in that file:
expectedCtor = "expected beginning of constructor";
arityMismatch name exp act = the error returned by ctorNumArgsMismatch(name, exp, act);
argTypeMismatch name ty desc = "expected <ty> for first argument of <name>
constructor, got <desc>" raised by the default case of the argument switch;
intRange name ty text = the same format raised when Number.Int32/Int64 fails
on text; parseDecimal msg = "parse decimal error: <msg>";
cannotStore ty k = "cannot store <ty> value into <k> type". -/
inductive JError where
  | expectedCtor
  | arityMismatch (name : String) (expected actual : Nat)
  | argTypeMismatch (name typeName desc : String)
  | intRange (name typeName text : String)
  | parseDecimal (msg : String)
  | cannotStore (typeName : String) (kind : RKind)
deriving DecidableEq, Repr

/-- Dynamically-typed constructor arguments as returned by d.ctorInterface()
while useNumber is forced true: a bare numeric literal arrives as the textual
Number wrapper, a quoted string as a string, and anything else is some other
dynamic value carried here by its printed description (the %T/%v text the
error message would use). -/
inductive JValue where
  | number (s : String)
  | str (s : String)
  | other (desc : String)
deriving DecidableEq, Repr

/-- Typed literal values produced by this file: NumberInt (32-bit),
NumberLong (64-bit) and Decimal128 wrapping a primitive.Decimal128. -/
inductive BsonValue where
  | numberInt (n : Int)
  | numberLong (n : Int)
  | decimal128 (d : Dec128)
deriving DecidableEq, Repr

/-- Parse a run of decimal digits left to right onto the accumulator acc;
none if any character is not a digit. -/
def parseDigitsAcc (acc : Nat) : List Char → Option Nat
  | [] => some acc
  | c :: cs => if c.isDigit then parseDigitsAcc (acc * 10 + (c.toNat - 48)) cs else none

/-- Parse a non-empty all-digit character list as a natural number. -/
def parseNat : List Char → Option Nat
  | [] => none
  | c :: cs => parseDigitsAcc 0 (c :: cs)

/-- Modelled from the spec (4.4): base-10 signed-integer parsing of the
textual Number wrapper, i.e. Go strconv.ParseInt(s, 10, bitSize) without the
final width check: an optional single leading sign followed by one or more
decimal digits; anything else fails.  The Number.Int32/Int64 methods
themselves are not under src/. -/
def parseIntChars : List Char → Option Int
  | [] => none
  | c :: cs =>
      if c = '-' then (parseNat cs).map (fun v : Nat => -(v : Int))
      else if c = '+' then (parseNat cs).map (fun v : Nat => (v : Int))
      else (parseNat (c :: cs)).map (fun v : Nat => (v : Int))

/-- The signed-integer parse of the whole text, see parseIntChars. -/
def parseIntText (s : String) : Option Int := parseIntChars s.data

/-- Modelled from the spec (4.4 toInt32): Number.Int32 parses the text as a
base-10 signed integer and fails when it does not fit in 32 bits. -/
def numberInt32 (s : String) : Option Int :=
  (parseIntText s).bind fun v =>
    if -(2 ^ 31) ≤ v ∧ v ≤ 2 ^ 31 - 1 then some v else none

/-- Modelled from the spec (4.4 toInt64): Number.Int64 parses the text as a
base-10 signed integer and fails when it does not fit in 64 bits. -/
def numberInt64 (s : String) : Option Int :=
  (parseIntText s).bind fun v =>
    if -(2 ^ 63) ≤ v ∧ v ≤ 2 ^ 63 - 1 then some v else none

/-- The decode state as the six entry points of src/common/json/number.go
observe it: the useNumber flag is the mutable field the source saves, forces
to true and restores; the remaining fields are oracles, modelled from the
spec, recording what the out-of-src collaborators return on this particular
input: firstOp is the op produced by d.scanWhile(scanSkipSpace) (the first
non-whitespace scan action); ctorArgs is the dynamic argument list produced
by d.ctorInterface() under the forced useNumber = true; ctorIntRes,
ctorLongRes and ctorStrRes are the results of the typed reader
d.ctor(name, types) for the NumberInt, NumberLong and string argument types
(4.3: the typed form fails on argument count or type mismatch, and these
oracle fields may therefore hold errors). -/
structure DecodeState where
  useNumber : Bool
  firstOp : ScanAction
  ctorArgs : List JValue
  ctorIntRes : Except JError Int
  ctorLongRes : Except JError Int
  ctorStrRes : Except JError String

/-- getNumberInt from src/common/json/number.go (lines 64-100).  Returns the
decode result together with the decode state after the call; the state is
returned on the error paths too, because d.error panics out of the function
leaving d with whatever mutations had been applied. -/
def getNumberInt (d : DecodeState) : Except JError BsonValue × DecodeState :=
  if d.firstOp ≠ ScanAction.scanBeginCtor then
    (Except.error JError.expectedCtor, d)
  else
    let saved := d.useNumber
    let d1 : DecodeState := { d with useNumber := true }
    let args := d1.ctorArgs
    if args.length ≠ 1 then
      (Except.error (JError.arityMismatch "NumberInt" 1 args.length), d1)
    else
      match args.head? with
      | some (JValue.number s) =>
          let d2 : DecodeState := { d1 with useNumber := saved }
          match numberInt32 s with
          | some n => (Except.ok (BsonValue.numberInt n), d2)
          | none => (Except.error (JError.intRange "NumberInt" "int32" s), d2)
      | some (JValue.str s) =>
          let d2 : DecodeState := { d1 with useNumber := saved }
          match numberInt32 s with
          | some n => (Except.ok (BsonValue.numberInt n), d2)
          | none => (Except.error (JError.intRange "NumberInt" "int32" s), d2)
      | some (JValue.other desc) =>
          (Except.error (JError.argTypeMismatch "NumberInt" "int32" desc), d1)
      | none =>
          (Except.error (JError.arityMismatch "NumberInt" 1 args.length), d1)

/-- getNumberLong from src/common/json/number.go (lines 121-158), analogous
to getNumberInt with the int64 conversion. -/
def getNumberLong (d : DecodeState) : Except JError BsonValue × DecodeState :=
  if d.firstOp ≠ ScanAction.scanBeginCtor then
    (Except.error JError.expectedCtor, d)
  else
    let saved := d.useNumber
    let d1 : DecodeState := { d with useNumber := true }
    let args := d1.ctorArgs
    if args.length ≠ 1 then
      (Except.error (JError.arityMismatch "NumberLong" 1 args.length), d1)
    else
      match args.head? with
      | some (JValue.number s) =>
          let d2 : DecodeState := { d1 with useNumber := saved }
          match numberInt64 s with
          | some n => (Except.ok (BsonValue.numberLong n), d2)
          | none => (Except.error (JError.intRange "NumberLong" "int64" s), d2)
      | some (JValue.str s) =>
          let d2 : DecodeState := { d1 with useNumber := saved }
          match numberInt64 s with
          | some n => (Except.ok (BsonValue.numberLong n), d2)
          | none => (Except.error (JError.intRange "NumberLong" "int64" s), d2)
      | some (JValue.other desc) =>
          (Except.error (JError.argTypeMismatch "NumberLong" "int64" desc), d1)
      | none =>
          (Except.error (JError.arityMismatch "NumberLong" 1 args.length), d1)

/-- getNumberDecimal from src/common/json/number.go (lines 181-215).  The
external primitive.ParseDecimal128 oracle is passed as the parameter pd; it
mirrors the Go (Decimal128, error) result pair, returning the parsed (or
error-path) value together with an optional error message.
Note two details taken verbatim from the source: the arity-mismatch name
passed to ctorNumArgsMismatch is "string", and the default argument case
reuses the NumberInt/int32 message text. -/
def getNumberDecimal (pd : String → Dec128 × Option String) (d : DecodeState) :
    Except JError BsonValue × DecodeState :=
  if d.firstOp ≠ ScanAction.scanBeginCtor then
    (Except.error JError.expectedCtor, d)
  else
    let saved := d.useNumber
    let d1 : DecodeState := { d with useNumber := true }
    let args := d1.ctorArgs
    if args.length ≠ 1 then
      (Except.error (JError.arityMismatch "string" 1 args.length), d1)
    else
      match args.head? with
      | some (JValue.number s) =>
          let d2 : DecodeState := { d1 with useNumber := saved }
          match pd s with
          | (_, some msg) => (Except.error (JError.parseDecimal msg), d2)
          | (v, none) => (Except.ok (BsonValue.decimal128 v), d2)
      | some (JValue.str s) =>
          let d2 : DecodeState := { d1 with useNumber := saved }
          match pd s with
          | (_, some msg) => (Except.error (JError.parseDecimal msg), d2)
          | (v, none) => (Except.ok (BsonValue.decimal128 v), d2)
      | some (JValue.other desc) =>
          (Except.error (JError.argTypeMismatch "NumberInt" "int32" desc), d1)
      | none =>
          (Except.error (JError.arityMismatch "string" 1 args.length), d1)

/-- storeNumberInt from src/common/json/number.go (lines 45-61).  The third
component of the result lists the values written into the destination v (one
v.Set call appends one element); the destination is abstracted to its reflect
kind, which is all the source inspects. -/
def storeNumberInt (d : DecodeState) (kind : RKind) :
    Except JError Unit × DecodeState × List BsonValue :=
  if d.firstOp ≠ ScanAction.scanBeginCtor then
    (Except.error JError.expectedCtor, d, [])
  else
    match d.ctorIntRes with
    | Except.error e => (Except.error e, d, [])
    | Except.ok n =>
        match kind with
        | RKind.Interface => (Except.ok (), d, [BsonValue.numberInt n])
        | k => (Except.error (JError.cannotStore "json.NumberInt" k), d, [])

/-- storeNumberLong from src/common/json/number.go (lines 103-119),
analogous to storeNumberInt. -/
def storeNumberLong (d : DecodeState) (kind : RKind) :
    Except JError Unit × DecodeState × List BsonValue :=
  if d.firstOp ≠ ScanAction.scanBeginCtor then
    (Except.error JError.expectedCtor, d, [])
  else
    match d.ctorLongRes with
    | Except.error e => (Except.error e, d, [])
    | Except.ok n =>
        match kind with
        | RKind.Interface => (Except.ok (), d, [BsonValue.numberLong n])
        | k => (Except.error (JError.cannotStore "json.NumberLong" k), d, [])

/-- storeNumberDecimal from src/common/json/number.go (lines 161-179).  The
single argument is read by the typed reader as a string; in the Interface
branch the source calls primitive.ParseDecimal128(args[0].String()) and
discards the error (vv, _ := ...), storing whatever value the parser
returned alongside the error. -/
def storeNumberDecimal (pd : String → Dec128 × Option String) (d : DecodeState) (kind : RKind) :
    Except JError Unit × DecodeState × List BsonValue :=
  if d.firstOp ≠ ScanAction.scanBeginCtor then
    (Except.error JError.expectedCtor, d, [])
  else
    match d.ctorStrRes with
    | Except.error e => (Except.error e, d, [])
    | Except.ok s =>
        match kind with
        | RKind.Interface =>
            let vv := (pd s).1
            (Except.ok (), d, [BsonValue.decimal128 vv])
        | k => (Except.error (JError.cannotStore "string" k), d, [])

/-- The decimal digit character for d < 10. -/
def digitChar (d : Nat) : Char := Char.ofNat (48 + d)

/-- The decimal digits of n, most significant first. -/
def renderNat (n : Nat) : List Char :=
  if _h : n < 10 then [digitChar n]
  else renderNat (n / 10) ++ [digitChar (n % 10)]
termination_by n
decreasing_by exact Nat.div_lt_self (by omega) (by omega)

/-- The base-10 rendering of an integer, as Go strconv.FormatInt(n, 10)
would print the literal argument of a constructor call. -/
def renderInt (n : Int) : String :=
  if n < 0 then ⟨'-' :: renderNat n.natAbs⟩ else ⟨renderNat n.natAbs⟩

/-- The observed value of the useNumber flag after one of the three dynamic
entry points returns or aborts: left forced to true when the call aborted on
an arity mismatch or an argument-type mismatch, and equal to the value on
entry in every other case. -/
def flagAfter (before : Bool) (r : Except JError BsonValue) : Bool :=
  match r with
  | Except.error (JError.arityMismatch _ _ _) => true
  | Except.error (JError.argTypeMismatch _ _ _) => true
  | _ => before

/-- A decimal-parser oracle that rejects every text, returning the NaN
constant alongside the error as mongo-driver's ParseDecimal128 does. -/
def pdReject : String → Dec128 × Option String := fun _ => (Dec128.dNaN, some "rejected")

/-- A decimal-parser oracle that accepts every text as the zero value. -/
def pdAccept : String → Dec128 × Option String := fun _ => (Dec128.zero, none)

/-- A decode input whose first non-whitespace scan action is not
begin-constructor. -/
def dNoCtor : DecodeState :=
  ⟨false, ScanAction.scanEnd, [],
   Except.error JError.expectedCtor,
   Except.error JError.expectedCtor,
   Except.error JError.expectedCtor⟩

/-- A decode input for a constructor call with zero arguments, as in
NumberInt(): the dynamic reader yields no arguments and the typed readers
fail with the corresponding arity errors. -/
def dArity0 : DecodeState :=
  ⟨false, ScanAction.scanBeginCtor, [],
   Except.error (JError.arityMismatch "NumberInt" 1 0),
   Except.error (JError.arityMismatch "NumberLong" 1 0),
   Except.error (JError.arityMismatch "string" 1 0)⟩

/-- A decode input for a constructor call with two arguments, as in
NumberInt(1,2). -/
def dArity2 : DecodeState :=
  ⟨false, ScanAction.scanBeginCtor, [JValue.number "1", JValue.number "2"],
   Except.error (JError.arityMismatch "NumberInt" 1 2),
   Except.error (JError.arityMismatch "NumberLong" 1 2),
   Except.error (JError.arityMismatch "string" 1 2)⟩

/-- A decode input for a constructor call whose single argument is the quoted
string abc: the dynamic reader yields the string, the string-typed reader
succeeds with it, and the integer-typed readers fail. -/
def dAbc : DecodeState :=
  ⟨false, ScanAction.scanBeginCtor, [JValue.str "abc"],
   Except.error (JError.argTypeMismatch "NumberInt" "int32" "string abc"),
   Except.error (JError.argTypeMismatch "NumberLong" "int64" "string abc"),
   Except.ok "abc"⟩

/-- A decode input whose single dynamic argument is the bare numeric literal
rendered from the integer n, as in NumberInt(n) under the forced
preserve-number mode; the typed-reader oracles are irrelevant here. -/
def dBare (n : Int) : DecodeState :=
  ⟨false, ScanAction.scanBeginCtor, [JValue.number (renderInt n)],
   Except.error JError.expectedCtor,
   Except.error JError.expectedCtor,
   Except.error JError.expectedCtor⟩

/-- A decode input whose single dynamic argument is the quoted string holding
the rendering of the integer n, as in NumberInt("n"). -/
def dQuoted (n : Int) : DecodeState :=
  ⟨false, ScanAction.scanBeginCtor, [JValue.str (renderInt n)],
   Except.error JError.expectedCtor,
   Except.error JError.expectedCtor,
   Except.error JError.expectedCtor⟩

/-- C10: stateUpperNu returns scanContinue on its accepted character m and in
the same step installs the chain state for the suffix ber leading to
stateUpperNumber; stateUpperNumber returns scanContinue on each of its
accepted characters I, L, D and installs the chain states for the suffixes
nt, ong, ecimal leading to the constructor-ready state — so each accepted
character of a Number* keyword yields exactly one state transition and never
a value-terminating scan action. -/
theorem scanner_number_keyword_steps :
    stepScan JState.stateUpperNu 'm'
      = (JState.generateState "Number" 'b' ['e', 'r'] JState.stateUpperNumber,
         ScanAction.scanContinue) ∧
    stepScan JState.stateUpperNumber 'I'
      = (JState.generateState "NumberInt" 'n' ['t'] JState.stateConstructor,
         ScanAction.scanContinue) ∧
    stepScan JState.stateUpperNumber 'L'
      = (JState.generateState "NumberLong" 'o' ['n', 'g'] JState.stateConstructor,
         ScanAction.scanContinue) ∧
    stepScan JState.stateUpperNumber 'D'
      = (JState.generateState "NumberDecimal" 'e' ['c', 'i', 'm', 'a', 'l'] JState.stateConstructor,
         ScanAction.scanContinue) :=
  ⟨rfl, rfl, rfl, rfl⟩

/-- C4 counterexample: on the unexpected character x after the prefix Number
the scanner raises a syntax error, but the error context it carries does not
contain the character D at all, so the message does not name all of the
expected alternatives I, L and D as the claim states. -/
theorem stateUpperNumber_error_omits_D :
    stepScan JState.stateUpperNumber 'x'
      = (JState.stateError 'x' afterNumberErrMsg, ScanAction.scanError) ∧
    'D' ∉ afterNumberErrMsg.data :=
  ⟨rfl, by decide⟩

/-- C4 amended: whenever the character following the matched prefix Number is
not I, L or D, the scanner signals an immediate fatal syntax error carrying
the offending character, whose message names the expected alternatives I and
L but not D. -/
theorem stateUpperNumber_rejects_unexpected (c : Char)
    (hI : c ≠ 'I') (hL : c ≠ 'L') (hD : c ≠ 'D') :
    stepScan JState.stateUpperNumber c
      = (JState.stateError c afterNumberErrMsg, ScanAction.scanError) ∧
    'I' ∈ afterNumberErrMsg.data ∧ 'L' ∈ afterNumberErrMsg.data ∧
    'D' ∉ afterNumberErrMsg.data := by
  refine ⟨?_, by decide, by decide, by decide⟩
  simp [stepScan, hI, hL, hD]

/-- C4 amended, concrete instance at the character x. -/
theorem stateUpperNumber_rejects_unexpected_inst :
    stepScan JState.stateUpperNumber 'x'
      = (JState.stateError 'x' afterNumberErrMsg, ScanAction.scanError) ∧
    'I' ∈ afterNumberErrMsg.data ∧ 'L' ∈ afterNumberErrMsg.data ∧
    'D' ∉ afterNumberErrMsg.data :=
  stateUpperNumber_rejects_unexpected 'x' (by decide) (by decide) (by decide)

/-- C8: every one of the six entry points reads the first scan action left
after skipping whitespace and, when it is not begin-constructor, fails with
the expected-beginning-of-constructor error, with the decode state unchanged
and nothing written into the destination — before decoding any argument. -/
theorem entry_points_require_begin_ctor (d : DecodeState)
    (pd : String → Dec128 × Option String) (k : RKind)
    (hop : d.firstOp ≠ ScanAction.scanBeginCtor) :
    getNumberInt d = (Except.error JError.expectedCtor, d) ∧
    getNumberLong d = (Except.error JError.expectedCtor, d) ∧
    getNumberDecimal pd d = (Except.error JError.expectedCtor, d) ∧
    storeNumberInt d k = (Except.error JError.expectedCtor, d, []) ∧
    storeNumberLong d k = (Except.error JError.expectedCtor, d, []) ∧
    storeNumberDecimal pd d k = (Except.error JError.expectedCtor, d, []) := by
  unfold getNumberInt getNumberLong getNumberDecimal
    storeNumberInt storeNumberLong storeNumberDecimal
  simp [hop]

/-- C8, concrete instance: the input whose first non-whitespace action is
end-of-input fails the same way through all six entry points. -/
theorem entry_points_require_begin_ctor_inst :
    getNumberInt dNoCtor = (Except.error JError.expectedCtor, dNoCtor) ∧
    getNumberLong dNoCtor = (Except.error JError.expectedCtor, dNoCtor) ∧
    getNumberDecimal pdAccept dNoCtor = (Except.error JError.expectedCtor, dNoCtor) ∧
    storeNumberInt dNoCtor RKind.Interface = (Except.error JError.expectedCtor, dNoCtor, []) ∧
    storeNumberLong dNoCtor RKind.Interface = (Except.error JError.expectedCtor, dNoCtor, []) ∧
    storeNumberDecimal pdAccept dNoCtor RKind.Interface
      = (Except.error JError.expectedCtor, dNoCtor, []) :=
  entry_points_require_begin_ctor dNoCtor pdAccept RKind.Interface (by decide)

/-- C1 counterexample: with a parser oracle that rejects every text
(returning the NaN constant alongside the error, as the real parser does),
storeNumberDecimal into an Interface destination whose argument decoded to
the string abc does not fail the decode: it succeeds and stores a Decimal128
value, so the destination-slot entry point does produce a Decimal128 value
from text the parser rejects. -/
theorem storeNumberDecimal_ignores_rejected_text :
    pdReject "abc" = (Dec128.dNaN, some "rejected") ∧
    storeNumberDecimal pdReject dAbc RKind.Interface
      = (Except.ok (), dAbc, [BsonValue.decimal128 Dec128.dNaN]) :=
  ⟨rfl, rfl⟩

/-- C1 amended: when the external decimal parser rejects the argument text,
the dynamic entry point getNumberDecimal fails with the wrapped decimal-parse
error, but the destination-slot entry point storeNumberDecimal with an
Interface destination discards the parser failure and succeeds, storing the
Decimal128 value the parser returned alongside the error. -/
theorem numberDecimal_rejected_text (pd : String → Dec128 × Option String)
    (d : DecodeState) (s msg : String) (v : Dec128)
    (hop : d.firstOp = ScanAction.scanBeginCtor)
    (hpd : pd s = (v, some msg)) :
    ((d.ctorArgs = [JValue.number s] ∨ d.ctorArgs = [JValue.str s]) →
      (getNumberDecimal pd d).1 = Except.error (JError.parseDecimal msg)) ∧
    (d.ctorStrRes = Except.ok s →
      storeNumberDecimal pd d RKind.Interface
        = (Except.ok (), d, [BsonValue.decimal128 v])) := by
  constructor
  · rintro (h | h) <;> simp [getNumberDecimal, hop, h, hpd]
  · intro h
    simp [storeNumberDecimal, hop, h, hpd]

/-- C1 amended, concrete instance at the rejected text abc. -/
theorem numberDecimal_rejected_text_inst :
    (getNumberDecimal pdReject dAbc).1 = Except.error (JError.parseDecimal "rejected") ∧
    storeNumberDecimal pdReject dAbc RKind.Interface
      = (Except.ok (), dAbc, [BsonValue.decimal128 Dec128.dNaN]) :=
  ⟨(numberDecimal_rejected_text pdReject dAbc "abc" "rejected" Dec128.dNaN rfl rfl).1
     (Or.inr rfl),
   (numberDecimal_rejected_text pdReject dAbc "abc" "rejected" Dec128.dNaN rfl rfl).2 rfl⟩

/-- C2 counterexample: entering getNumberInt with useNumber false on a
zero-argument constructor call aborts with the arity error while the
useNumber flag is still forced to true, so the flag after the call differs
from its value before the call. -/
theorem getNumberInt_flag_leak :
    (getNumberInt dArity0).2.useNumber ≠ dArity0.useNumber := by
  decide

/-- C2 amended: for each of the three dynamic entry points, the useNumber
flag after the call equals its value before the call when the call succeeds,
fails on the missing begin-constructor, or fails with an integer-range or
decimal-parse error; but a call aborting on an arity mismatch or an
argument-type mismatch leaves the flag forced to true instead of restoring
it. -/
theorem useNumber_flag_after_call (d : DecodeState)
    (pd : String → Dec128 × Option String) :
    (getNumberInt d).2.useNumber = flagAfter d.useNumber (getNumberInt d).1 ∧
    (getNumberLong d).2.useNumber = flagAfter d.useNumber (getNumberLong d).1 ∧
    (getNumberDecimal pd d).2.useNumber = flagAfter d.useNumber (getNumberDecimal pd d).1 := by
  obtain ⟨u, op, cargs, ri, rl, rs⟩ := d
  by_cases hop : op = ScanAction.scanBeginCtor
  · rcases cargs with _ | ⟨a, _ | ⟨b, t⟩⟩
    · simp_all [getNumberInt, getNumberLong, getNumberDecimal, flagAfter]
    · rcases a with s | s | ds
      · rcases h32 : numberInt32 s with _ | n <;>
          rcases h64 : numberInt64 s with _ | m <;>
            rcases hpd : pd s with ⟨v, _ | msg⟩ <;>
              simp_all [getNumberInt, getNumberLong, getNumberDecimal, flagAfter]
      · rcases h32 : numberInt32 s with _ | n <;>
          rcases h64 : numberInt64 s with _ | m <;>
            rcases hpd : pd s with ⟨v, _ | msg⟩ <;>
              simp_all [getNumberInt, getNumberLong, getNumberDecimal, flagAfter]
      · simp_all [getNumberInt, getNumberLong, getNumberDecimal, flagAfter]
    · simp_all [getNumberInt, getNumberLong, getNumberDecimal, flagAfter]
  · simp_all [getNumberInt, getNumberLong, getNumberDecimal, flagAfter]

/-- C2 amended, concrete instance on the zero-argument constructor call. -/
theorem useNumber_flag_after_call_inst :
    (getNumberInt dArity0).2.useNumber = flagAfter dArity0.useNumber (getNumberInt dArity0).1 ∧
    (getNumberLong dArity0).2.useNumber = flagAfter dArity0.useNumber (getNumberLong dArity0).1 ∧
    (getNumberDecimal pdAccept dArity0).2.useNumber
      = flagAfter dArity0.useNumber (getNumberDecimal pdAccept dArity0).1 :=
  useNumber_flag_after_call dArity0 pdAccept

/-- C3 counterexample: a two-argument NumberDecimal constructor call fails
with an arity-mismatch error that carries the name string, which is not the
constructor name NumberDecimal the claim requires. -/
theorem getNumberDecimal_arity_name_is_string :
    (getNumberDecimal pdAccept dArity2).1
      = Except.error (JError.arityMismatch "string" 1 2) ∧
    ("string" : String) ≠ "NumberDecimal" :=
  ⟨rfl, by decide⟩

/-- C3 amended: a constructor-call decode through a dynamic entry point whose
argument list does not contain exactly one argument fails with an
arity-mismatch error carrying the expected count 1 and the actual count read;
the name it carries is the constructor's own for NumberInt and NumberLong,
but the literal name string for NumberDecimal. -/
theorem arity_error_names (d : DecodeState)
    (pd : String → Dec128 × Option String)
    (hop : d.firstOp = ScanAction.scanBeginCtor)
    (h1 : d.ctorArgs.length ≠ 1) :
    (getNumberInt d).1 = Except.error (JError.arityMismatch "NumberInt" 1 d.ctorArgs.length) ∧
    (getNumberLong d).1 = Except.error (JError.arityMismatch "NumberLong" 1 d.ctorArgs.length) ∧
    (getNumberDecimal pd d).1 = Except.error (JError.arityMismatch "string" 1 d.ctorArgs.length) := by
  refine ⟨?_, ?_, ?_⟩ <;>
    simp [getNumberInt, getNumberLong, getNumberDecimal, hop, h1]

/-- C3 amended, concrete instance on the two-argument call. -/
theorem arity_error_names_inst :
    (getNumberInt dArity2).1 = Except.error (JError.arityMismatch "NumberInt" 1 2) ∧
    (getNumberLong dArity2).1 = Except.error (JError.arityMismatch "NumberLong" 1 2) ∧
    (getNumberDecimal pdAccept dArity2).1 = Except.error (JError.arityMismatch "string" 1 2) :=
  arity_error_names dArity2 pdAccept rfl (by decide)

/-- C5 counterexample: storeNumberInt on a destination of kind String with an
invalid constructor argument (a zero-argument call, so the typed reader fails
with the arity error) reports that argument error, not the cannot-store
destination-type error the claim requires for every non-Interface
destination regardless of argument validity. -/
theorem storeNumberInt_ctor_error_precedes_kind_check :
    storeNumberInt dArity0 RKind.String
      = (Except.error (JError.arityMismatch "NumberInt" 1 0), dArity0, []) ∧
    JError.arityMismatch "NumberInt" 1 0
      ≠ JError.cannotStore "json.NumberInt" RKind.String :=
  ⟨rfl, by decide⟩

/-- C5 amended: on a destination whose kind is not Interface, each store
entry point fails; the failure is the cannot-store destination-type error
naming the produced type and the destination kind whenever the typed
argument reader succeeded, while an argument-decode failure is reported as
that argument error before the destination kind is inspected. -/
theorem store_nonInterface_dest_error (d : DecodeState)
    (pd : String → Dec128 × Option String) (k : RKind)
    (hop : d.firstOp = ScanAction.scanBeginCtor)
    (hk : k ≠ RKind.Interface) :
    (∀ n, d.ctorIntRes = Except.ok n →
      storeNumberInt d k = (Except.error (JError.cannotStore "json.NumberInt" k), d, [])) ∧
    (∀ n, d.ctorLongRes = Except.ok n →
      storeNumberLong d k = (Except.error (JError.cannotStore "json.NumberLong" k), d, [])) ∧
    (∀ s, d.ctorStrRes = Except.ok s →
      storeNumberDecimal pd d k = (Except.error (JError.cannotStore "string" k), d, [])) ∧
    (∀ e, d.ctorIntRes = Except.error e → storeNumberInt d k = (Except.error e, d, [])) ∧
    (∀ e, d.ctorLongRes = Except.error e → storeNumberLong d k = (Except.error e, d, [])) ∧
    (∀ e, d.ctorStrRes = Except.error e → storeNumberDecimal pd d k = (Except.error e, d, [])) := by
  refine ⟨?_, ?_, ?_, ?_, ?_, ?_⟩ <;>
    · intro x hx
      cases k <;>
        simp_all [storeNumberInt, storeNumberLong, storeNumberDecimal, hop, hx]

/-- C5 amended, concrete instances: a valid argument on a String-kind
destination yields the cannot-store error, and an invalid argument on the
same destination yields the argument error. -/
theorem store_nonInterface_dest_error_inst :
    storeNumberDecimal pdAccept dAbc RKind.String
      = (Except.error (JError.cannotStore "string" RKind.String), dAbc, []) ∧
    storeNumberInt dArity0 RKind.String
      = (Except.error (JError.arityMismatch "NumberInt" 1 0), dArity0, []) :=
  ⟨(store_nonInterface_dest_error dAbc pdAccept RKind.String rfl (by decide)).2.2.1 "abc" rfl,
   (store_nonInterface_dest_error dArity0 pdAccept RKind.String rfl (by decide)).2.2.2.1
     (JError.arityMismatch "NumberInt" 1 0) rfl⟩

/-- C9: for each of the three store entry points, at most one write to the
destination happens per call, a failing execution never writes, and a write
happens only when the typed argument reader succeeded and the destination
kind is Interface. -/
theorem store_writes_at_most_once (d : DecodeState)
    (pd : String → Dec128 × Option String) (k : RKind) :
    ((storeNumberInt d k).2.2.length ≤ 1 ∧
      (∀ e, (storeNumberInt d k).1 = Except.error e → (storeNumberInt d k).2.2 = []) ∧
      ((storeNumberInt d k).2.2 ≠ [] →
        (∃ n, d.ctorIntRes = Except.ok n) ∧ k = RKind.Interface)) ∧
    ((storeNumberLong d k).2.2.length ≤ 1 ∧
      (∀ e, (storeNumberLong d k).1 = Except.error e → (storeNumberLong d k).2.2 = []) ∧
      ((storeNumberLong d k).2.2 ≠ [] →
        (∃ n, d.ctorLongRes = Except.ok n) ∧ k = RKind.Interface)) ∧
    ((storeNumberDecimal pd d k).2.2.length ≤ 1 ∧
      (∀ e, (storeNumberDecimal pd d k).1 = Except.error e →
        (storeNumberDecimal pd d k).2.2 = []) ∧
      ((storeNumberDecimal pd d k).2.2 ≠ [] →
        (∃ s, d.ctorStrRes = Except.ok s) ∧ k = RKind.Interface)) := by
  obtain ⟨u, op, cargs, ri, rl, rs⟩ := d
  unfold storeNumberInt storeNumberLong storeNumberDecimal
  by_cases hop : op = ScanAction.scanBeginCtor <;>
    cases ri <;> cases rl <;> cases rs <;> cases k <;>
      simp_all

/-- C9, concrete instance on an Interface destination with a successfully
read string argument. -/
theorem store_writes_at_most_once_inst :
    ((storeNumberInt dAbc RKind.Interface).2.2.length ≤ 1 ∧
      (∀ e, (storeNumberInt dAbc RKind.Interface).1 = Except.error e →
        (storeNumberInt dAbc RKind.Interface).2.2 = []) ∧
      ((storeNumberInt dAbc RKind.Interface).2.2 ≠ [] →
        (∃ n, dAbc.ctorIntRes = Except.ok n) ∧ RKind.Interface = RKind.Interface)) ∧
    ((storeNumberLong dAbc RKind.Interface).2.2.length ≤ 1 ∧
      (∀ e, (storeNumberLong dAbc RKind.Interface).1 = Except.error e →
        (storeNumberLong dAbc RKind.Interface).2.2 = []) ∧
      ((storeNumberLong dAbc RKind.Interface).2.2 ≠ [] →
        (∃ n, dAbc.ctorLongRes = Except.ok n) ∧ RKind.Interface = RKind.Interface)) ∧
    ((storeNumberDecimal pdAccept dAbc RKind.Interface).2.2.length ≤ 1 ∧
      (∀ e, (storeNumberDecimal pdAccept dAbc RKind.Interface).1 = Except.error e →
        (storeNumberDecimal pdAccept dAbc RKind.Interface).2.2 = []) ∧
      ((storeNumberDecimal pdAccept dAbc RKind.Interface).2.2 ≠ [] →
        (∃ s, dAbc.ctorStrRes = Except.ok s) ∧ RKind.Interface = RKind.Interface)) :=
  store_writes_at_most_once dAbc pdAccept RKind.Interface

theorem digitChar_isDigit {d : Nat} (h : d < 10) : (digitChar d).isDigit = true := by
  interval_cases d <;> decide

theorem digitChar_toNat {d : Nat} (h : d < 10) : (digitChar d).toNat = 48 + d := by
  interval_cases d <;> decide

theorem isDigit_ne_sign {c : Char} (h : c.isDigit = true) : c ≠ '-' ∧ c ≠ '+' := by
  constructor <;> rintro rfl <;> exact absurd h (by decide)

theorem parseDigitsAcc_append (l1 l2 : List Char) :
    ∀ acc, parseDigitsAcc acc (l1 ++ l2)
      = (parseDigitsAcc acc l1).bind fun a => parseDigitsAcc a l2 := by
  induction l1 with
  | nil => intro acc; simp [parseDigitsAcc]
  | cons c cs ih =>
      intro acc
      by_cases h : c.isDigit <;> simp [parseDigitsAcc, h, ih]

theorem renderNat_small {n : Nat} (h : n < 10) : renderNat n = [digitChar n] := by
  rw [renderNat]
  simp [h]

theorem renderNat_large {n : Nat} (h : ¬ n < 10) :
    renderNat n = renderNat (n / 10) ++ [digitChar (n % 10)] := by
  rw [renderNat]
  simp [h]

theorem parseDigitsAcc_renderNat (n : Nat) :
    ∀ acc, parseDigitsAcc acc (renderNat n)
      = some (acc * 10 ^ (renderNat n).length + n) := by
  induction n using Nat.strong_induction_on with
  | _ n ih =>
    intro acc
    by_cases h : n < 10
    · rw [renderNat_small h]
      simp [parseDigitsAcc, digitChar_isDigit h, digitChar_toNat h]
    · have hdiv : n / 10 < n := Nat.div_lt_self (by omega) (by omega)
      have hmod : n % 10 < 10 := Nat.mod_lt n (by omega)
      rw [renderNat_large h, parseDigitsAcc_append]
      rw [ih (n / 10) hdiv]
      simp only [Option.some_bind, parseDigitsAcc, digitChar_isDigit hmod,
        digitChar_toNat hmod, if_true, List.length_append, List.length_cons,
        List.length_nil, pow_succ, Option.some.injEq]
      rw [← Nat.mul_assoc]
      generalize acc * 10 ^ (renderNat (n / 10)).length = B
      omega

theorem renderNat_cons_digit (n : Nat) :
    ∃ c cs, renderNat n = c :: cs ∧ c.isDigit = true := by
  induction n using Nat.strong_induction_on with
  | _ n ih =>
    by_cases h : n < 10
    · exact ⟨digitChar n, [], renderNat_small h, digitChar_isDigit h⟩
    · have hdiv : n / 10 < n := Nat.div_lt_self (by omega) (by omega)
      obtain ⟨c, cs, hren, hdig⟩ := ih (n / 10) hdiv
      exact ⟨c, cs ++ [digitChar (n % 10)], by rw [renderNat_large h, hren]; rfl, hdig⟩

theorem parseNat_renderNat (n : Nat) : parseNat (renderNat n) = some n := by
  obtain ⟨c, cs, hren, _⟩ := renderNat_cons_digit n
  rw [hren, parseNat, ← hren, parseDigitsAcc_renderNat]
  simp

theorem parseIntText_renderInt (n : Int) : parseIntText (renderInt n) = some n := by
  by_cases hn : n < 0
  · simp only [parseIntText, renderInt, if_pos hn]
    show parseIntChars ('-' :: renderNat n.natAbs) = some n
    rw [show parseIntChars ('-' :: renderNat n.natAbs)
          = (parseNat (renderNat n.natAbs)).map (fun v : Nat => -(v : Int)) from by
        simp [parseIntChars]]
    rw [parseNat_renderNat]
    simp only [Option.map_some', Option.some.injEq]
    omega
  · simp only [parseIntText, renderInt, if_neg hn]
    obtain ⟨c, cs, hren, hdig⟩ := renderNat_cons_digit n.natAbs
    obtain ⟨hdash, hplus⟩ := isDigit_ne_sign hdig
    show parseIntChars (renderNat n.natAbs) = some n
    rw [hren]
    simp only [parseIntChars, if_neg hdash, if_neg hplus]
    rw [← hren, parseNat_renderNat]
    simp only [Option.map_some', Option.some.injEq]
    omega

theorem numberInt32_renderInt {n : Int} (h1 : -(2 ^ 31) ≤ n) (h2 : n ≤ 2 ^ 31 - 1) :
    numberInt32 (renderInt n) = some n := by
  have hin : -(2 ^ 31) ≤ n ∧ n ≤ 2 ^ 31 - 1 := ⟨h1, h2⟩
  simp only [numberInt32, parseIntText_renderInt, Option.some_bind]
  rw [if_pos hin]

theorem numberInt64_renderInt {n : Int} (h1 : -(2 ^ 63) ≤ n) (h2 : n ≤ 2 ^ 63 - 1) :
    numberInt64 (renderInt n) = some n := by
  have hin : -(2 ^ 63) ≤ n ∧ n ≤ 2 ^ 63 - 1 := ⟨h1, h2⟩
  simp only [numberInt64, parseIntText_renderInt, Option.some_bind]
  rw [if_pos hin]

theorem numberInt32_renderInt_none {n : Int} (h : n < -(2 ^ 31) ∨ 2 ^ 31 - 1 < n) :
    numberInt32 (renderInt n) = none := by
  simp only [numberInt32, parseIntText_renderInt, Option.some_bind]
  rw [if_neg]
  omega

/-- C6: for every integer n in the 32-bit range, decoding NumberInt with the
bare base-10 rendering of n as its single argument and decoding NumberInt
with the same digits quoted as a string argument both succeed and yield the
same NumberInt value n. -/
theorem numberInt_bare_and_quoted_agree (n : Int)
    (h1 : -(2 ^ 31) ≤ n) (h2 : n ≤ 2 ^ 31 - 1)
    (db ds : DecodeState)
    (hopb : db.firstOp = ScanAction.scanBeginCtor)
    (hops : ds.firstOp = ScanAction.scanBeginCtor)
    (hab : db.ctorArgs = [JValue.number (renderInt n)])
    (has : ds.ctorArgs = [JValue.str (renderInt n)]) :
    (getNumberInt db).1 = Except.ok (BsonValue.numberInt n) ∧
    (getNumberInt ds).1 = Except.ok (BsonValue.numberInt n) := by
  constructor <;>
    simp [getNumberInt, hopb, hops, hab, has, numberInt32_renderInt h1 h2]

/-- C6, concrete instance at n = 5. -/
theorem numberInt_bare_and_quoted_agree_inst :
    (getNumberInt (dBare 5)).1 = Except.ok (BsonValue.numberInt 5) ∧
    (getNumberInt (dQuoted 5)).1 = Except.ok (BsonValue.numberInt 5) :=
  numberInt_bare_and_quoted_agree 5 (by decide) (by decide)
    (dBare 5) (dQuoted 5) rfl rfl rfl rfl

/-- C7: for every integer n inside the 64-bit range but outside the 32-bit
range, decoding NumberLong with the bare rendering of n succeeds yielding the
NumberLong value n, while decoding NumberInt on the same argument fails with
the int32 range error on that text. -/
theorem numberLong_succeeds_numberInt_range_fails (n : Int)
    (h1 : -(2 ^ 63) ≤ n) (h2 : n ≤ 2 ^ 63 - 1)
    (hout : n < -(2 ^ 31) ∨ 2 ^ 31 - 1 < n)
    (d : DecodeState) (hop : d.firstOp = ScanAction.scanBeginCtor)
    (hargs : d.ctorArgs = [JValue.number (renderInt n)]) :
    (getNumberLong d).1 = Except.ok (BsonValue.numberLong n) ∧
    (getNumberInt d).1 = Except.error (JError.intRange "NumberInt" "int32" (renderInt n)) := by
  constructor
  · simp [getNumberLong, hop, hargs, numberInt64_renderInt h1 h2]
  · simp [getNumberInt, hop, hargs, numberInt32_renderInt_none hout]

/-- C7, concrete instance at n = 2 ^ 31 (one past the int32 maximum). -/
theorem numberLong_succeeds_numberInt_range_fails_inst :
    (getNumberLong (dBare (2 ^ 31))).1 = Except.ok (BsonValue.numberLong (2 ^ 31)) ∧
    (getNumberInt (dBare (2 ^ 31))).1
      = Except.error (JError.intRange "NumberInt" "int32" (renderInt (2 ^ 31))) :=
  numberLong_succeeds_numberInt_range_fails (2 ^ 31) (by decide) (by decide)
    (Or.inr (by decide)) (dBare (2 ^ 31)) rfl rfl

end MongoJson
